import Mathlib

/-!
Verification of the repository synchronization engine of `itcpr` (cloud-cli)
against its natural-language specification.

The driver under verification is `src/itcpr/gitops.py`: a wrapper class
`GitOps` around the system `git` command.  Each Python method is embedded
below as a pure Lean function.  Python strings are embedded as `List Char`
(`pyStr` converts a Lean string literal); the outcome of running an external
process (`subprocess.run` with `check=True`) is embedded as a `ProcResult`
input, and Python exceptions as the `PyError` sum returned through `Except`.
Filesystem facts that the code reads (`Path.exists`, the `.git` directory)
are explicit `Bool` inputs, and the results of the individual git commands
that `get_status` issues are supplied by a `GitEnv` record of oracles.
The sequence of externally visible effects (directory creation, git command
invocations) is returned as a `List GitAction` trace so that theorems can
speak about which commands were or were not run.
-/

namespace CloudCli

/-- Character list of a string literal; Python `str` values are embedded as
`List Char`. -/
def pyStr (s : String) : List Char := s.data

/-- Whitespace recognized by Python `str.strip()` (the ASCII part, which is
all that the git outputs handled here can contain). -/
def isPySpace (c : Char) : Bool :=
  c == ' ' || c == '\t' || c == '\n' || c == '\r' || c == '\x0b' || c == '\x0c'

/-- Python `s.strip()`: remove leading and trailing whitespace. -/
def strip (s : List Char) : List Char :=
  ((s.dropWhile isPySpace).reverse.dropWhile isPySpace).reverse

/-- Python `s.lower()` restricted to ASCII, which covers the git diagnostics
scanned by `pull_rebase`. -/
def lowerAscii (s : List Char) : List Char :=
  s.map Char.toLower

/-- Python `pat in s`: substring containment. -/
def containsSub (pat : List Char) : List Char → Bool
  | [] => pat.isEmpty
  | c :: t => pat.isPrefixOf (c :: t) || containsSub pat t

/-- Python `s.split(sep, 1)` when the separator occurs, returning the text
before and after the first occurrence of `sep`; `none` when `sep` does not
occur (the code below only splits after a `startswith` check, so the `none`
branch is unreachable there).  `sep` is nonempty at every use site. -/
def splitOnce (sep : List Char) : List Char → Option (List Char × List Char)
  | [] => none
  | c :: t =>
    if sep.isPrefixOf (c :: t) && !sep.isEmpty then
      some ([], (c :: t).drop sep.length)
    else
      match splitOnce sep t with
      | some (a, b) => some (c :: a, b)
      | none => none

/-- Python `s.replace(pat, rep, 1)`: replace the first occurrence of `pat`.
`pat` is nonempty at every use site. -/
def replaceOnce (pat rep : List Char) : List Char → List Char
  | [] => []
  | c :: t =>
    if pat.isPrefixOf (c :: t) && !pat.isEmpty then
      rep ++ (c :: t).drop pat.length
    else
      c :: replaceOnce pat rep t

/-- Python `s.replace(pat, rep)`: replace every (non-overlapping, leftmost)
occurrence of `pat`.  `pat` is nonempty at every use site. -/
def replaceAll (pat rep : List Char) (s : List Char) : List Char :=
  match s with
  | [] => []
  | c :: t =>
    if h : pat.isPrefixOf (c :: t) = true ∧ pat ≠ [] then
      rep ++ replaceAll pat rep ((c :: t).drop pat.length)
    else
      c :: replaceAll pat rep t
termination_by s.length
decreasing_by
  · have hp : 0 < pat.length := List.length_pos.mpr h.2
    simp only [List.length_drop, List.length_cons]
    omega
  · simp only [List.length_cons]
    omega

/-- Python `int()` on the outputs of `git rev-list --count`, which are
decimal digit strings; every other input makes `int()` raise `ValueError`,
embedded as `none` (the callers catch it with a bare `except`). -/
def parseCount (s : List Char) : Option Nat :=
  if s ≠ [] ∧ s.all Char.isDigit then
    some (s.foldl (fun acc c => acc * 10 + (c.toNat - '0'.toNat)) 0)
  else
    none

/-- Outcome of one `subprocess.run(cmd, check=True, capture_output=True,
text=True, timeout=300)` call: normal completion (exit status 0) with its
captured stdout, a `subprocess.CalledProcessError` carrying the captured
stderr (nonzero exit status under `check=True`), or
`subprocess.TimeoutExpired`. -/
inductive ProcResult where
  | completed (stdout : List Char)
  | calledProcessError (stderr : List Char)
  | timeoutExpired
deriving DecidableEq

/-- Python exceptions thrown by `gitops.py`, one constructor per distinct
raise site (the `RuntimeError` message text is recovered by `errStr`), plus
`calledProcessError` for the `subprocess.CalledProcessError` exception type
itself, which `pull_rebase` tries to catch. -/
inductive PyError where
  /-- RuntimeError "Git operation timed out" (gitops.py line 40). -/
  | timedOut
  /-- RuntimeError "Git operation failed: {stderr}" (line 43). -/
  | gitFailed (stderr : List Char)
  /-- RuntimeError "Not a git repository" (lines 95, 167, 197). -/
  | notARepo
  /-- RuntimeError "Merge conflict detected. Please resolve manually." (line 175). -/
  | mergeConflict
  /-- RuntimeError "Path already exists: {path}" (line 52). -/
  | alreadyExists
  /-- RuntimeError "Clone completed but repository not found at {path}" (line 84). -/
  | cloneNotFound
  /-- RuntimeError "git command not found. Please install git." (line 18). -/
  | gitNotFound
  /-- The raw `subprocess.CalledProcessError` exception with its stderr. -/
  | calledProcessError (stderr : List Char)
deriving DecidableEq

/-- Python `str(e)` for the exceptions above, as stored in the `error`
field of the status dictionary. -/
def errStr : PyError → List Char
  | .timedOut => pyStr "Git operation timed out"
  | .gitFailed s => pyStr "Git operation failed: " ++ s
  | .notARepo => pyStr "Not a git repository"
  | .mergeConflict => pyStr "Merge conflict detected. Please resolve manually."
  | .alreadyExists => pyStr "Path already exists: "
  | .cloneNotFound => pyStr "Clone completed but repository not found at "
  | .gitNotFound => pyStr "git command not found. Please install git."
  | .calledProcessError s => s

/-- True exactly on `Except.error`. -/
def isErr {α : Type} : Except PyError α → Bool
  | .error _ => true
  | .ok _ => false

/-- True exactly on `Except.ok`. -/
def isOkE {α : Type} : Except PyError α → Bool
  | .error _ => false
  | .ok _ => true

/-- Embedding of `GitOps._run_git` (gitops.py lines 20-43) applied to the outcome of its
`subprocess.run` call: a completed process returns normally (the caller
reads `.stdout`), `TimeoutExpired` is converted to
RuntimeError "Git operation timed out", and `CalledProcessError` is
converted to RuntimeError "Git operation failed: {stderr}".  In particular
`run_git` never lets a `CalledProcessError` escape as such. -/
def run_git (pr : ProcResult) : Except PyError (List Char) :=
  match pr with
  | .completed stdout => .ok stdout
  | .timeoutExpired => .error .timedOut
  | .calledProcessError stderr => .error (.gitFailed stderr)

/-- The token-injection block of `GitOps.clone` (gitops.py lines 54-67).
Python `if token:` is false both for `None` and for the empty string; for an
`https://` URL the text after the first `"://"` (via `split("://", 1)`) is
re-prefixed with the credential segment; for a `git@` URL every occurrence
of `"git@"` is removed (`str.replace` replaces all occurrences), the first
`":"` becomes `"/"`, and the result is given the HTTPS credential prefix;
any other URL is left unchanged. -/
def prepareUrl (remote_url : List Char) (token : Option (List Char)) : List Char :=
  match token with
  | none => remote_url
  | some t =>
    if t.isEmpty then
      remote_url
    else if (pyStr "https://").isPrefixOf remote_url then
      match splitOnce (pyStr "://") remote_url with
      | some (scheme, rest) =>
        scheme ++ pyStr "://x-access-token:" ++ t ++ pyStr "@" ++ rest
      | none => remote_url
    else if (pyStr "git@").isPrefixOf remote_url then
      pyStr "https://x-access-token:" ++ t ++ pyStr "@" ++
        replaceOnce (pyStr ":") (pyStr "/") (replaceAll (pyStr "git@") [] remote_url)
    else
      remote_url

/-- The facts about the external world that one `GitOps` instance can
observe: whether `repo_path/.git` exists, and the outcome of each git
command `get_status` may issue.  Commands whose argument is built at run
time (the upstream query for a branch, `rev-parse --verify` of a ref,
`rev-list --count` of a range) are oracles keyed by that argument. -/
structure GitEnv where
  /-- Python `(self.repo_path / ".git").exists()`. -/
  hasGitDir : Bool
  /-- Outcome of `git status --porcelain`. -/
  statusPorcelain : ProcResult
  /-- Outcome of `git rev-parse --abbrev-ref HEAD`. -/
  revParseHead : ProcResult
  /-- Outcome of `git rev-parse --abbrev-ref {branch}@{upstream}`,
  keyed by the branch name. -/
  upstreamOf : List Char → ProcResult
  /-- Outcome of `git rev-parse --verify {ref}`, keyed by the ref. -/
  verifyRef : List Char → ProcResult
  /-- Outcome of `git rev-list --count {range}`, keyed by the range
  string (`HEAD..{remote}` or `{remote}..HEAD`). -/
  revListCount : List Char → ProcResult

/-- Externally visible effects of a driver operation, in order. -/
inductive GitAction where
  /-- Python `parent_dir.mkdir(parents=True, exist_ok=True)` in `clone`. -/
  | mkdirParents
  /-- One `_run_git(*args)` invocation with the given argument list. -/
  | gitRun (args : List (List Char))
deriving DecidableEq

/-- Embedding of `GitOps.is_repo` (gitops.py lines 45-47): the path contains a `.git`
entry. -/
def is_repo (env : GitEnv) : Bool :=
  env.hasGitDir

/-- The status dictionary built by `GitOps.get_status`.  Python returns a
dict whose key set differs between the success and the failure path; each
optional key is an `Option` field (`none` = key absent). -/
structure Status where
  clean : Bool
  has_changes : Option Bool
  behind : Option Bool
  ahead : Option Bool
  status_output : Option (List Char)
  error : Option (List Char)
deriving DecidableEq

/-- The `except Exception` result of `get_status` (gitops.py lines 160-162):
`{"clean": False, "error": str(e)}`. -/
def status_failure (e : PyError) : Status :=
  { clean := false, has_changes := none, behind := none, ahead := none,
    status_output := none, error := some (errStr e) }

/-- Resolution of the remote tracking branch (gitops.py lines 118-125):
the stripped output of `rev-parse --abbrev-ref {branch}@{upstream}` when
that command succeeds, else the fallback `origin/{branch}`. -/
def resolve_remote_branch (env : GitEnv) (current_branch : List Char) : List Char :=
  match run_git (env.upstreamOf current_branch) with
  | .ok uout => strip uout
  | .error _ => pyStr "origin/" ++ current_branch

/-- One commit-range count block of `get_status` (gitops.py lines 127-151;
the `behind` block and the `ahead` block are textually parallel and differ
only in the range argument).  Skipped when `remote_branch` is falsy; inside
the bare `try`, the remote ref is verified, the range is counted, the count
parsed, and compared with 0 — any failure yields `false`. -/
def range_count_positive (env : GitEnv) (remote_branch range : List Char) : Bool :=
  if remote_branch.isEmpty then
    false
  else
    match run_git (env.verifyRef remote_branch) with
    | .error _ => false
    | .ok _ =>
      match run_git (env.revListCount range) with
      | .error _ => false
      | .ok cout =>
        match parseCount (strip cout) with
        | none => false
        | some n => decide (0 < n)

/-- Embedding of `GitOps.get_status` (gitops.py lines 104-162).  A missing `.git` entry
returns `{"clean": False, "error": "Not a git repository"}`; a failure of
`status --porcelain` or of `rev-parse --abbrev-ref HEAD` propagates to the
outer `except Exception` and returns `{"clean": False, "error": str(e)}`;
otherwise the success dictionary is built, with `clean` the negation of
`has_changes` and `behind`/`ahead` computed by the two range-count blocks
against the resolved remote branch. -/
def get_status (env : GitEnv) : Status :=
  match is_repo env with
  | false =>
    { clean := false, has_changes := none, behind := none, ahead := none,
      status_output := none, error := some (pyStr "Not a git repository") }
  | true =>
    match run_git env.statusPorcelain with
    | .error e => status_failure e
    | .ok status_stdout =>
      let has_changes : Bool := !(strip status_stdout).isEmpty
      match run_git env.revParseHead with
      | .error e => status_failure e
      | .ok branch_stdout =>
        let current_branch := strip branch_stdout
        let remote_branch := resolve_remote_branch env current_branch
        { clean := !has_changes,
          has_changes := some has_changes,
          behind := some (range_count_positive env remote_branch
            (pyStr "HEAD.." ++ remote_branch)),
          ahead := some (range_count_positive env remote_branch
            (remote_branch ++ pyStr "..HEAD")),
          status_output := some status_stdout,
          error := none }

/-- Embedding of `GitOps.clone` (gitops.py lines 49-90).  `pathExists` is
`self.repo_path.exists()`, `repo_name` is `self.repo_path.name`, `clonePr`
the outcome of the `git clone` command, and `clonedPathExists` whether
`parent_dir / repo_name` exists after the clone command.  The trace records
the parent-directory creation and the clone invocation; when the path
pre-exists the function raises before any effect. -/
def clone (pathExists : Bool) (remote_url : List Char) (token : Option (List Char))
    (repo_name : List Char) (clonePr : ProcResult) (clonedPathExists : Bool) :
    Except PyError Bool × List GitAction :=
  match pathExists with
  | true => (.error .alreadyExists, [])
  | false =>
    let url := prepareUrl remote_url token
    let acts : List GitAction := [.mkdirParents, .gitRun [pyStr "clone", url, repo_name]]
    match run_git clonePr with
    | .error e => (.error e, acts)
    | .ok _ =>
      match clonedPathExists with
      | false => (.error .cloneNotFound, acts)
      | true => (.ok true, acts)

/-- Embedding of `GitOps.fetch` (gitops.py lines 92-102). -/
def fetch (env : GitEnv) (pr : ProcResult) : Except PyError Bool × List GitAction :=
  match is_repo env with
  | false => (.error .notARepo, [])
  | true =>
    let acts : List GitAction := [.gitRun [pyStr "fetch", pyStr "origin"]]
    match run_git pr with
    | .error e => (.error e, acts)
    | .ok _ => (.ok true, acts)

/-- Embedding of `GitOps.pull_rebase` (gitops.py lines 164-176).  The
`except subprocess.CalledProcessError` handler is rendered as the match arm
on `PyError.calledProcessError`; every other exception propagates
unchanged. -/
def pull_rebase (env : GitEnv) (pr : ProcResult) : Except PyError Bool × List GitAction :=
  match is_repo env with
  | false => (.error .notARepo, [])
  | true =>
    let acts : List GitAction :=
      [.gitRun [pyStr "pull", pyStr "--rebase", pyStr "origin", pyStr "HEAD"]]
    match run_git pr with
    | .ok _ => (.ok true, acts)
    | .error (.calledProcessError stderr) =>
      if containsSub (pyStr "CONFLICT") stderr
          || containsSub (pyStr "conflict") (lowerAscii stderr) then
        (.error .mergeConflict, acts)
      else
        (.error (.calledProcessError stderr), acts)
    | .error e => (.error e, acts)

/-- Effect on the observable world of a successful `git add -A` followed by
a successful `git commit`: all modifications are committed, so a subsequent
`git status --porcelain` prints nothing.  (This is the documented behavior
of the external git tool; the other oracle fields are untouched.  The
working-tree effect of a failed add or commit is not needed by any claim
and is left unmodelled.) -/
def applyCommit (env : GitEnv) : GitEnv :=
  { env with statusPorcelain := .completed [] }

/-- Embedding of `GitOps.commit_if_changes` (gitops.py lines 178-192).  Python checks
`status.get("has_changes")`, which is `None` when `get_status` took a
failure path (that key is only present in the success dictionary); the
commit therefore runs exactly when `has_changes` is present and true. -/
def commit_if_changes (env : GitEnv) (addPr commitPr : ProcResult)
    (message : List Char) : Except PyError Bool × GitEnv × List GitAction :=
  match (get_status env).has_changes with
  | some true =>
    match run_git addPr with
    | .error e => (.error e, env, [.gitRun [pyStr "add", pyStr "-A"]])
    | .ok _ =>
      match run_git commitPr with
      | .error e =>
        (.error e, env,
          [.gitRun [pyStr "add", pyStr "-A"],
           .gitRun [pyStr "commit", pyStr "-m", message]])
      | .ok _ =>
        (.ok true, applyCommit env,
          [.gitRun [pyStr "add", pyStr "-A"],
           .gitRun [pyStr "commit", pyStr "-m", message]])
  | _ => (.ok false, env, [])

/-- Embedding of `GitOps.push` (gitops.py lines 194-204). -/
def push (env : GitEnv) (pr : ProcResult) : Except PyError Bool × List GitAction :=
  match is_repo env with
  | false => (.error .notARepo, [])
  | true =>
    let acts : List GitAction := [.gitRun [pyStr "push", pyStr "origin", pyStr "HEAD"]]
    match run_git pr with
    | .error e => (.error e, acts)
    | .ok _ => (.ok true, acts)

/-- The constructed driver: the resolved git executable and the repository
path. -/
structure GitOpsState where
  git : List Char
  repo_path : List Char
deriving DecidableEq

/-- Embedding of `GitOps.__init__` (gitops.py lines 14-18).  `which_git` is the result of
`shutil.which("git")`; a falsy result (absent executable) raises
RuntimeError "git command not found. Please install git." before anything
else can run. -/
def gitops_init (which_git : Option (List Char)) (repo_path : List Char) :
    Except PyError GitOpsState :=
  match which_git with
  | none => .error .gitNotFound
  | some g =>
    if g.isEmpty then
      .error .gitNotFound
    else
      .ok { git := g, repo_path := repo_path }

/-! ### Concrete environments used by counterexamples and witnesses -/

/-- A path with no `.git` entry; the command oracles are irrelevant. -/
def envNotRepo : GitEnv :=
  { hasGitDir := false,
    statusPorcelain := .completed [],
    revParseHead := .completed [],
    upstreamOf := fun _ => .completed [],
    verifyRef := fun _ => .completed [],
    revListCount := fun _ => .completed [] }

/-- A clean repository on branch `main` whose every auxiliary command
succeeds. -/
def envRepoOk : GitEnv :=
  { hasGitDir := true,
    statusPorcelain := .completed [],
    revParseHead := .completed (pyStr "main\n"),
    upstreamOf := fun _ => .completed (pyStr "origin/main\n"),
    verifyRef := fun _ => .completed [],
    revListCount := fun _ => .completed (pyStr "0\n") }

/-- A clean repository on branch `main` whose remote tracking ref does not
exist: the upstream query and every `rev-parse --verify` fail. -/
def envNoRemote : GitEnv :=
  { hasGitDir := true,
    statusPorcelain := .completed [],
    revParseHead := .completed (pyStr "main\n"),
    upstreamOf := fun _ => .calledProcessError (pyStr "fatal: no upstream"),
    verifyRef := fun _ => .calledProcessError (pyStr "fatal: Needed a single revision"),
    revListCount := fun _ => .completed [] }

/-- A clean repository that has diverged from its remote: both range counts
are positive. -/
def envDiverged : GitEnv :=
  { hasGitDir := true,
    statusPorcelain := .completed [],
    revParseHead := .completed (pyStr "main\n"),
    upstreamOf := fun _ => .completed (pyStr "origin/main\n"),
    verifyRef := fun _ => .completed [],
    revListCount := fun _ => .completed (pyStr "2\n") }

/-- A repository with one modified file and no reachable remote. -/
def envDirty : GitEnv :=
  { hasGitDir := true,
    statusPorcelain := .completed (pyStr " M a.txt\n"),
    revParseHead := .completed (pyStr "main\n"),
    upstreamOf := fun _ => .calledProcessError (pyStr "fatal: no upstream"),
    verifyRef := fun _ => .calledProcessError (pyStr "fatal: Needed a single revision"),
    revListCount := fun _ => .completed [] }

/-- Stderr of a rebase that hit a merge conflict. -/
def conflictStderr : List Char :=
  pyStr "CONFLICT (content): Merge conflict in a.txt"

/-! ### Helper lemmas about the embedded Python string operations -/

theorem isPrefixOf_self_append (l t : List Char) : l.isPrefixOf (l ++ t) = true := by
  induction l with
  | nil => simp
  | cons a as ih => simp [List.isPrefixOf_cons₂, ih]

theorem splitOnce_https (rest : List Char) :
    splitOnce (pyStr "://") (pyStr "https://" ++ rest) = some (pyStr "https", rest) := by
  show splitOnce [':', '/', '/']
      ('h' :: 't' :: 't' :: 'p' :: 's' :: ':' :: '/' :: '/' :: rest)
      = some (['h', 't', 't', 'p', 's'], rest)
  simp [splitOnce, List.isPrefixOf_cons₂]

theorem replaceAll_of_not_contains (pat rep : List Char) :
    ∀ s : List Char, containsSub pat s = false → replaceAll pat rep s = s := by
  intro s
  induction s with
  | nil => intro _; simp [replaceAll]
  | cons c t ih =>
    intro h
    rw [containsSub, Bool.or_eq_false_iff] at h
    rw [replaceAll, dif_neg]
    · rw [ih h.2]
    · intro hc
      rw [h.1] at hc
      exact Bool.false_ne_true hc.1

theorem replaceAll_append_self (pat rep s : List Char) (hp : pat ≠ []) :
    replaceAll pat rep (pat ++ s) = rep ++ replaceAll pat rep s := by
  match pat, hp with
  | p :: ps, _ =>
    rw [List.cons_append, replaceAll, dif_pos]
    · simp [List.drop_succ_cons, List.drop_left]
    · refine ⟨?_, by simp⟩
      rw [← List.cons_append]
      exact isPrefixOf_self_append (p :: ps) s

theorem replaceOnce_first_colon (rep rest : List Char) :
    ∀ host : List Char, (':' : Char) ∉ host →
      replaceOnce (pyStr ":") rep (host ++ ':' :: rest) = host ++ rep ++ rest := by
  have hpat : pyStr ":" = [':'] := rfl
  intro host
  induction host with
  | nil =>
    intro _
    rw [hpat, List.nil_append, List.nil_append, replaceOnce, if_pos]
    · simp
    · simp [List.isPrefixOf_cons₂]
  | cons c t ih =>
    intro h
    have hc : ¬((':' : Char) = c) := fun hcc => h (hcc ▸ List.mem_cons_self c t)
    rw [List.cons_append, replaceOnce, if_neg]
    · rw [ih (fun hm => h (List.mem_cons_of_mem c hm))]
      simp
    · rw [hpat]
      simp [List.isPrefixOf_cons₂]
      intro hcc
      exact absurd hcc hc

theorem pyStr_one_colon (x : List Char) : pyStr ":" ++ x = ':' :: x := rfl

theorem pyStr_one_slash (x : List Char) : pyStr "/" ++ x = '/' :: x := rfl

theorem isEmpty_false_of_ne_nil {t : List Char} (ht : t ≠ []) : t.isEmpty = false := by
  cases t with
  | nil => exact absurd rfl ht
  | cons c cs => rfl

theorem https_isPrefixOf_g_cons (x : List Char) :
    (pyStr "https://").isPrefixOf ('g' :: x) = false := by
  show List.isPrefixOf ['h', 't', 't', 'p', 's', ':', '/', '/'] ('g' :: x) = false
  simp [List.isPrefixOf_cons₂]

theorem prepareUrl_https (t rest : List Char) (ht : t ≠ []) :
    prepareUrl (pyStr "https://" ++ rest) (some t)
      = pyStr "https://x-access-token:" ++ t ++ pyStr "@" ++ rest := by
  simp only [prepareUrl, isEmpty_false_of_ne_nil ht, Bool.false_eq_true, if_false,
    isPrefixOf_self_append, if_true, splitOnce_https]
  rw [show pyStr "https" ++ pyStr "://x-access-token:" = pyStr "https://x-access-token:" from rfl]

theorem prepareUrl_ssh (t host path : List Char) (ht : t ≠ [])
    (hng : containsSub (pyStr "git@") (host ++ ':' :: path) = false)
    (hbc : (':' : Char) ∉ host) :
    prepareUrl (pyStr "git@" ++ (host ++ ':' :: path)) (some t)
      = pyStr "https://x-access-token:" ++ t ++ pyStr "@" ++ (host ++ '/' :: path) := by
  have hhttps : (pyStr "https://").isPrefixOf (pyStr "git@" ++ (host ++ ':' :: path)) = false :=
    https_isPrefixOf_g_cons _
  simp only [prepareUrl, isEmpty_false_of_ne_nil ht, Bool.false_eq_true, if_false,
    hhttps, isPrefixOf_self_append, if_true]
  rw [replaceAll_append_self _ _ _ (by simp [pyStr]),
    replaceAll_of_not_contains _ _ _ hng, List.nil_append,
    replaceOnce_first_colon _ _ _ hbc]
  simp [List.append_assoc, pyStr_one_slash]

/-! ### Characterization lemmas for `get_status` -/

theorem get_status_success (env : GitEnv) (so bo : List Char)
    (hg : env.hasGitDir = true)
    (hs : run_git env.statusPorcelain = .ok so)
    (hb : run_git env.revParseHead = .ok bo) :
    get_status env =
      { clean := !(!(strip so).isEmpty),
        has_changes := some (!(strip so).isEmpty),
        behind := some (range_count_positive env (resolve_remote_branch env (strip bo))
          (pyStr "HEAD.." ++ resolve_remote_branch env (strip bo))),
        ahead := some (range_count_positive env (resolve_remote_branch env (strip bo))
          (resolve_remote_branch env (strip bo) ++ pyStr "..HEAD")),
        status_output := some so,
        error := none } := by
  simp [get_status, is_repo, hg, hs, hb]

theorem get_status_failure_shape (env : GitEnv)
    (h : env.hasGitDir = false ∨ isErr (run_git env.statusPorcelain) = true
         ∨ isErr (run_git env.revParseHead) = true) :
    (get_status env).clean = false ∧ (get_status env).has_changes = none
    ∧ (get_status env).behind = none ∧ (get_status env).ahead = none
    ∧ (get_status env).status_output = none ∧ (get_status env).error.isSome = true := by
  cases hg : env.hasGitDir with
  | false => simp [get_status, is_repo, hg]
  | true =>
    cases hs : run_git env.statusPorcelain with
    | error e => simp [get_status, is_repo, hg, hs, status_failure]
    | ok so =>
      cases hb : run_git env.revParseHead with
      | error e => simp [get_status, is_repo, hg, hs, hb, status_failure]
      | ok bo =>
        exfalso
        rcases h with h | h | h
        · rw [hg] at h; exact Bool.noConfusion h
        · rw [hs] at h; exact Bool.noConfusion h
        · rw [hb] at h; exact Bool.noConfusion h

theorem get_status_has_changes_inv (env : GitEnv) (b : Bool)
    (h : (get_status env).has_changes = some b) :
    env.hasGitDir = true ∧ (∃ so, run_git env.statusPorcelain = .ok so)
    ∧ ∃ bo, run_git env.revParseHead = .ok bo := by
  cases hg : env.hasGitDir with
  | false => simp [get_status, is_repo, hg] at h
  | true =>
    cases hs : run_git env.statusPorcelain with
    | error e => simp [get_status, is_repo, hg, hs, status_failure] at h
    | ok so =>
      cases hb : run_git env.revParseHead with
      | error e => simp [get_status, is_repo, hg, hs, hb, status_failure] at h
      | ok bo => exact ⟨rfl, ⟨so, rfl⟩, ⟨bo, rfl⟩⟩

theorem get_status_after_commit (env : GitEnv)
    (hg : env.hasGitDir = true) (bo : List Char)
    (hb : run_git env.revParseHead = .ok bo) :
    (get_status (applyCommit env)).has_changes = some false := by
  have hg' : (applyCommit env).hasGitDir = true := by
    show env.hasGitDir = true
    exact hg
  have hs' : run_git (applyCommit env).statusPorcelain = .ok [] := rfl
  have hb' : run_git (applyCommit env).revParseHead = .ok bo := hb
  rw [get_status_success (applyCommit env) [] bo hg' hs' hb']
  rfl

theorem range_count_false_of_verify_err (env : GitEnv) (rb range : List Char)
    (h : isErr (run_git (env.verifyRef rb)) = true) :
    range_count_positive env rb range = false := by
  cases hE : rb.isEmpty with
  | true => simp [range_count_positive, hE]
  | false =>
    cases hv : run_git (env.verifyRef rb) with
    | error e => simp [range_count_positive, hE, hv]
    | ok _ => rw [hv] at h; exact absurd h (by simp [isErr])

/-! ### Claim theorems -/

/-- C1 (code bug): when the underlying rebase command fails with
merge-conflict markers in its stderr, `pull_rebase` does NOT report the
distinct MergeConflict outcome: `_run_git` has already converted the
`CalledProcessError` into the generic RuntimeError
"Git operation failed: {stderr}", so the `except CalledProcessError`
handler in `pull_rebase` is unreachable.  First conjunct: at the concrete
conflicting failure the result is the generic `gitFailed` error.  Second
conjunct: on every input the outcome is one of success, NotARepository,
Timeout, or the generic `gitFailed` — the `mergeConflict` outcome (and a
raw `calledProcessError`) can never be produced. -/
theorem pull_rebase_conflict_not_distinct :
    pull_rebase envRepoOk (.calledProcessError conflictStderr)
      = (.error (.gitFailed conflictStderr),
         [.gitRun [pyStr "pull", pyStr "--rebase", pyStr "origin", pyStr "HEAD"]])
    ∧ ∀ (env : GitEnv) (pr : ProcResult),
        (pull_rebase env pr).1 = .error .notARepo
        ∨ (pull_rebase env pr).1 = .ok true
        ∨ (pull_rebase env pr).1 = .error .timedOut
        ∨ ∃ s, (pull_rebase env pr).1 = .error (.gitFailed s) := by
  constructor
  · rfl
  · intro env pr
    cases hg : is_repo env with
    | false => left; simp [pull_rebase, hg]
    | true =>
      cases pr with
      | completed out => right; left; simp [pull_rebase, hg, run_git]
      | timeoutExpired => right; right; left; simp [pull_rebase, hg, run_git]
      | calledProcessError s =>
        right; right; right
        exact ⟨s, by simp [pull_rebase, hg, run_git]⟩

/-- C2 counterexample: with the empty-string token, `if token:` is false,
so clone performs no injection at all and the produced URL is the input
unchanged — not the credential-injected form the claim requires for every
token. -/
theorem token_injection_fails_on_empty_token :
    prepareUrl (pyStr "https://github.com/o/r.git") (some [])
        = pyStr "https://github.com/o/r.git"
    ∧ prepareUrl (pyStr "https://github.com/o/r.git") (some [])
        ≠ pyStr "https://x-access-token:@github.com/o/r.git" := by
  exact ⟨rfl, by decide⟩

/-- C2 (amended): for every NONEMPTY token `t` the injection is exact
(Python `if token:` skips the transform for the empty string, which is what
the counterexample exhibits; the schematic segments `host`, `o`, `r` are
read so that the first colon of the SSH form is the host/path separator —
`host` contains no colon — and the literal `git@` occurs only as the SSH
prefix, since `str.replace` removes every occurrence): the HTTPS URL
`https://host/o/r.git` becomes `https://x-access-token:t@host/o/r.git`, and
the SSH URL `git@host:o/r.git` becomes the same HTTPS form. -/
theorem token_injection_exact_for_nonempty (host o r t : List Char) (ht : t ≠ [])
    (hng : containsSub (pyStr "git@")
      (host ++ pyStr ":" ++ o ++ pyStr "/" ++ r ++ pyStr ".git") = false)
    (hbc : (':' : Char) ∉ host) :
    prepareUrl (pyStr "https://" ++ host ++ pyStr "/" ++ o ++ pyStr "/" ++ r ++ pyStr ".git")
        (some t)
      = pyStr "https://x-access-token:" ++ t ++ pyStr "@" ++ host ++ pyStr "/" ++ o
          ++ pyStr "/" ++ r ++ pyStr ".git"
    ∧ prepareUrl (pyStr "git@" ++ host ++ pyStr ":" ++ o ++ pyStr "/" ++ r ++ pyStr ".git")
        (some t)
      = pyStr "https://x-access-token:" ++ t ++ pyStr "@" ++ host ++ pyStr "/" ++ o
          ++ pyStr "/" ++ r ++ pyStr ".git" := by
  constructor
  · have h := prepareUrl_https t (host ++ pyStr "/" ++ o ++ pyStr "/" ++ r ++ pyStr ".git") ht
    simpa only [List.append_assoc] using h
  · have hng' : containsSub (pyStr "git@")
        (host ++ ':' :: (o ++ pyStr "/" ++ r ++ pyStr ".git")) = false := by
      simpa only [List.append_assoc, pyStr_one_colon] using hng
    have h := prepareUrl_ssh t host (o ++ pyStr "/" ++ r ++ pyStr ".git") ht hng' hbc
    simpa only [List.append_assoc, pyStr_one_colon, pyStr_one_slash] using h

/-- C2 witness: the amended injection theorem applied to the concrete URL
pair from the specification, with token `T`. -/
theorem token_injection_exact_witness :
    prepareUrl (pyStr "https://" ++ pyStr "github.com" ++ pyStr "/" ++ pyStr "owner"
        ++ pyStr "/" ++ pyStr "repo" ++ pyStr ".git") (some (pyStr "T"))
      = pyStr "https://x-access-token:" ++ pyStr "T" ++ pyStr "@" ++ pyStr "github.com"
          ++ pyStr "/" ++ pyStr "owner" ++ pyStr "/" ++ pyStr "repo" ++ pyStr ".git"
    ∧ prepareUrl (pyStr "git@" ++ pyStr "github.com" ++ pyStr ":" ++ pyStr "owner"
        ++ pyStr "/" ++ pyStr "repo" ++ pyStr ".git") (some (pyStr "T"))
      = pyStr "https://x-access-token:" ++ pyStr "T" ++ pyStr "@" ++ pyStr "github.com"
          ++ pyStr "/" ++ pyStr "owner" ++ pyStr "/" ++ pyStr "repo" ++ pyStr ".git" :=
  token_injection_exact_for_nonempty (pyStr "github.com") (pyStr "owner") (pyStr "repo")
    (pyStr "T") (by decide) (by decide) (by decide)

/-- C3 counterexample: when status computation fails (here: the path is not
a git repository) the returned status has `clean = false`, yet
`commit_if_changes` is a no-op returning false — it tests the
`has_changes` key, which is absent on the failure path — contradicting
"stages and commits exactly when getStatus().clean is false". -/
theorem commit_if_changes_clean_false_noop :
    (get_status envNotRepo).clean = false
    ∧ commit_if_changes envNotRepo (.completed []) (.completed []) (pyStr "m")
        = (.ok false, envNotRepo, []) :=
  ⟨rfl, rfl⟩

/-- C3 (amended): `commit_if_changes` stages and commits exactly when
`get_status` reports `has_changes = true` — which, whenever status
computation succeeds (no `error`), is equivalent to `clean = false`; when
status computation fails it is a no-op returning false.  And it is
idempotent: a call that committed leaves the working tree clean, so an
immediately following call with no intervening change performs no git
command and returns false. -/
theorem commit_if_changes_semantics :
    (∀ (env : GitEnv) (ap cp : ProcResult) (m : List Char),
        (get_status env).has_changes ≠ some true →
        commit_if_changes env ap cp m = (.ok false, env, []))
    ∧ (∀ env : GitEnv, (get_status env).error = none →
        ((get_status env).has_changes = some true ↔ (get_status env).clean = false))
    ∧ (∀ (env : GitEnv) (ap cp ap2 cp2 : ProcResult) (m m2 : List Char)
        (env1 : GitEnv) (tr1 : List GitAction),
        commit_if_changes env ap cp m = (.ok true, env1, tr1) →
        tr1 = [.gitRun [pyStr "add", pyStr "-A"],
               .gitRun [pyStr "commit", pyStr "-m", m]]
        ∧ commit_if_changes env1 ap2 cp2 m2 = (.ok false, env1, [])) := by
  refine ⟨?_, ?_, ?_⟩
  · intro env ap cp m h
    cases hv : (get_status env).has_changes with
    | none => simp [commit_if_changes, hv]
    | some b =>
      cases b with
      | true => exact absurd hv h
      | false => simp [commit_if_changes, hv]
  · intro env herr
    cases hg : env.hasGitDir with
    | false =>
      have := get_status_failure_shape env (Or.inl hg)
      rw [herr] at this
      simp at this
    | true =>
      cases hs : run_git env.statusPorcelain with
      | error e =>
        have := get_status_failure_shape env (Or.inr (Or.inl (by rw [hs]; rfl)))
        rw [herr] at this
        simp at this
      | ok so =>
        cases hb : run_git env.revParseHead with
        | error e =>
          have := get_status_failure_shape env (Or.inr (Or.inr (by rw [hb]; rfl)))
          rw [herr] at this
          simp at this
        | ok bo =>
          rw [get_status_success env so bo hg hs hb]
          cases h : (strip so).isEmpty <;> simp
  · intro env ap cp ap2 cp2 m m2 env1 tr1 h
    cases hv : (get_status env).has_changes with
    | none => simp [commit_if_changes, hv] at h
    | some b =>
      cases b with
      | false => simp [commit_if_changes, hv] at h
      | true =>
        simp only [commit_if_changes, hv] at h
        cases ha : run_git ap with
        | error e => rw [ha] at h; simp at h
        | ok ao =>
          rw [ha] at h
          cases hc : run_git cp with
          | error e => rw [hc] at h; simp at h
          | ok co =>
            rw [hc] at h
            simp only [Prod.mk.injEq, Except.ok.injEq] at h
            obtain ⟨-, henv, htr⟩ := h
            obtain ⟨hg, -, bo, hb⟩ := get_status_has_changes_inv env true hv
            refine ⟨htr.symm, ?_⟩
            rw [← henv]
            simp [commit_if_changes, get_status_after_commit env hg bo hb]

/-- C3 witness: on a concrete dirty repository the first call commits and
the second call is a no-op returning false. -/
theorem commit_if_changes_idempotent_witness :
    commit_if_changes (applyCommit envDirty) (ProcResult.completed [])
        (ProcResult.completed []) (pyStr "auto")
      = (.ok false, applyCommit envDirty, []) :=
  (commit_if_changes_semantics.2.2 envDirty (.completed []) (.completed [])
    (.completed []) (.completed []) (pyStr "auto") (pyStr "auto")
    (applyCommit envDirty)
    [.gitRun [pyStr "add", pyStr "-A"],
     .gitRun [pyStr "commit", pyStr "-m", pyStr "auto"]] rfl).2

/-- C4: `get_status` is a total function (the embedding returns a `Status`
for every environment — the Python code catches every exception), and every
failure is reported through the status object: whenever `error` is set the
status carries only that field with the conservative `clean = false` (all
other keys absent), and `error` is set exactly when status computation
itself failed (the path is not a repository, or `status --porcelain` or
`rev-parse --abbrev-ref HEAD` raised). -/
theorem get_status_never_raises (env : GitEnv) :
    ((get_status env).error = none
      ∨ ((get_status env).clean = false ∧ (get_status env).has_changes = none
         ∧ (get_status env).behind = none ∧ (get_status env).ahead = none
         ∧ (get_status env).status_output = none))
    ∧ ((get_status env).error.isSome = true
        ↔ (env.hasGitDir = false ∨ isErr (run_git env.statusPorcelain) = true
           ∨ isErr (run_git env.revParseHead) = true)) := by
  constructor
  · cases hg : env.hasGitDir with
    | false =>
      obtain ⟨h1, h2, h3, h4, h5, -⟩ := get_status_failure_shape env (Or.inl hg)
      exact Or.inr ⟨h1, h2, h3, h4, h5⟩
    | true =>
      cases hs : run_git env.statusPorcelain with
      | error e =>
        obtain ⟨h1, h2, h3, h4, h5, -⟩ :=
          get_status_failure_shape env (Or.inr (Or.inl (by rw [hs]; rfl)))
        exact Or.inr ⟨h1, h2, h3, h4, h5⟩
      | ok so =>
        cases hb : run_git env.revParseHead with
        | error e =>
          obtain ⟨h1, h2, h3, h4, h5, -⟩ :=
            get_status_failure_shape env (Or.inr (Or.inr (by rw [hb]; rfl)))
          exact Or.inr ⟨h1, h2, h3, h4, h5⟩
        | ok bo =>
          left
          rw [get_status_success env so bo hg hs hb]
  · constructor
    · intro hsome
      cases hg : env.hasGitDir with
      | false => exact Or.inl rfl
      | true =>
        cases hs : run_git env.statusPorcelain with
        | error e => exact Or.inr (Or.inl rfl)
        | ok so =>
          cases hb : run_git env.revParseHead with
          | error e => exact Or.inr (Or.inr rfl)
          | ok bo =>
            rw [get_status_success env so bo hg hs hb] at hsome
            simp at hsome
    · intro h
      exact (get_status_failure_shape env h).2.2.2.2.2

/-- C4 witness: the characterization applied to a path without git
metadata. -/
theorem get_status_never_raises_witness :
    (get_status envNotRepo).error.isSome = true :=
  (get_status_never_raises envNotRepo).2.mpr (Or.inl rfl)

/-- C5: when the resolved remote tracking reference does not exist (every
`rev-parse --verify` of it fails), the status reports `ahead = false` and
`behind = false` with no error; and the two flags are computed by
independent commit-range counts, so both can be true at once, as the
concrete diverged environment shows. -/
theorem get_status_remote_ref_absent_and_divergence :
    (∀ (env : GitEnv) (so bo : List Char),
        env.hasGitDir = true →
        run_git env.statusPorcelain = .ok so →
        run_git env.revParseHead = .ok bo →
        isErr (run_git (env.verifyRef (resolve_remote_branch env (strip bo)))) = true →
        (get_status env).ahead = some false ∧ (get_status env).behind = some false
        ∧ (get_status env).error = none)
    ∧ ((get_status envDiverged).ahead = some true
       ∧ (get_status envDiverged).behind = some true
       ∧ (get_status envDiverged).error = none) := by
  constructor
  · intro env so bo hg hs hb hv
    rw [get_status_success env so bo hg hs hb]
    refine ⟨?_, ?_, rfl⟩
    · simp [range_count_false_of_verify_err env _ _ hv]
    · simp [range_count_false_of_verify_err env _ _ hv]
  · refine ⟨?_, ?_, ?_⟩ <;> decide

/-- C5 witness: the no-remote-reference half applied to a concrete
repository whose upstream query and ref verification fail. -/
theorem get_status_remote_ref_absent_witness :
    (get_status envNoRemote).ahead = some false
    ∧ (get_status envNoRemote).behind = some false
    ∧ (get_status envNoRemote).error = none :=
  get_status_remote_ref_absent_and_divergence.1 envNoRemote [] (pyStr "main\n")
    rfl rfl rfl rfl

/-- C6: cloning into an already-existing path fails with the
"Path already exists" error and performs no action at all: no directory is
created and no git command is run (the effect trace is empty), for every
URL, token, and command outcome. -/
theorem clone_already_exists_untouched (remote_url : List Char)
    (token : Option (List Char)) (repo_name : List Char) (clonePr : ProcResult)
    (clonedPathExists : Bool) :
    clone true remote_url token repo_name clonePr clonedPathExists
      = (.error .alreadyExists, []) := rfl

/-- C7: when the target path does not pre-exist, clone always creates the
parent directories strictly before running `git clone` (the effect trace is
exactly `[mkdirParents, gitRun clone…]` in that order), and when the clone
command succeeds it verifies the resulting working copy: success is
declared only if the cloned path exists, and the "Clone completed but
repository not found" error is raised otherwise. -/
theorem clone_parents_and_postcheck (remote_url : List Char)
    (token : Option (List Char)) (repo_name : List Char) (clonePr : ProcResult) :
    (∀ clonedPathExists : Bool,
        (clone false remote_url token repo_name clonePr clonedPathExists).2
          = [.mkdirParents,
             .gitRun [pyStr "clone", prepareUrl remote_url token, repo_name]])
    ∧ (isOkE (run_git clonePr) = true →
        (clone false remote_url token repo_name clonePr true).1 = .ok true
        ∧ (clone false remote_url token repo_name clonePr false).1
            = .error .cloneNotFound) := by
  constructor
  · intro cpe
    cases hr : run_git clonePr <;> cases cpe <;> simp [clone, hr]
  · intro hok
    cases hr : run_git clonePr with
    | error e => rw [hr] at hok; exact absurd hok (by simp [isOkE])
    | ok so => exact ⟨by simp [clone, hr], by simp [clone, hr]⟩

/-- C7 witness: the clone contract applied to a concrete URL with a
successful clone command. -/
theorem clone_parents_and_postcheck_witness :
    (clone false (pyStr "https://github.com/o/r.git") none (pyStr "r")
        (.completed []) true).2
      = [.mkdirParents,
         .gitRun [pyStr "clone",
           prepareUrl (pyStr "https://github.com/o/r.git") none, pyStr "r"]]
    ∧ (clone false (pyStr "https://github.com/o/r.git") none (pyStr "r")
        (.completed []) true).1 = .ok true :=
  ⟨(clone_parents_and_postcheck (pyStr "https://github.com/o/r.git") none
      (pyStr "r") (.completed [])).1 true,
   ((clone_parents_and_postcheck (pyStr "https://github.com/o/r.git") none
      (pyStr "r") (.completed [])).2 rfl).1⟩

/-- C8: `fetch`, `pull_rebase` and `push` all fail with
"Not a git repository" before running any git command (empty effect trace)
whenever the path has no git metadata; and when the path is a repository
that failure is unreachable: none of the three can return the
NotARepository error. -/
theorem not_a_repository_guard :
    (∀ (env : GitEnv) (pr : ProcResult), is_repo env = false →
        fetch env pr = (.error .notARepo, [])
        ∧ pull_rebase env pr = (.error .notARepo, [])
        ∧ push env pr = (.error .notARepo, []))
    ∧ (∀ (env : GitEnv) (pr : ProcResult), is_repo env = true →
        (fetch env pr).1 ≠ .error .notARepo
        ∧ (pull_rebase env pr).1 ≠ .error .notARepo
        ∧ (push env pr).1 ≠ .error .notARepo) := by
  constructor
  · intro env pr h
    refine ⟨?_, ?_, ?_⟩ <;> simp [fetch, pull_rebase, push, h]
  · intro env pr h
    refine ⟨?_, ?_, ?_⟩ <;> cases pr <;> simp [fetch, pull_rebase, push, run_git, h]

/-- C8 witness: the guard applied to a concrete non-repository and a
concrete repository. -/
theorem not_a_repository_guard_witness :
    fetch envNotRepo (.completed []) = (.error .notARepo, [])
    ∧ (fetch envRepoOk (.completed [])).1 ≠ .error .notARepo :=
  ⟨(not_a_repository_guard.1 envNotRepo (.completed []) rfl).1,
   (not_a_repository_guard.2 envRepoOk (.completed []) rfl).1⟩

/-- C9: a missing git executable (`shutil.which` returned nothing, or a
falsy value) makes Driver construction fail with
"git command not found" — before any repository processing — and
consequently every successfully constructed driver state holds a nonempty
resolved git executable path, so no git operation ever runs without one. -/
theorem missing_git_fatal_at_init :
    (∀ repo_path : List Char, gitops_init none repo_path = .error .gitNotFound)
    ∧ (∀ (wg : Option (List Char)) (repo_path : List Char) (s : GitOpsState),
        gitops_init wg repo_path = .ok s → s.git ≠ []) := by
  constructor
  · intro repo_path; rfl
  · intro wg repo_path s h
    cases wg with
    | none => simp [gitops_init] at h
    | some g =>
      cases g with
      | nil => simp [gitops_init] at h
      | cons c cs =>
        simp [gitops_init] at h
        rw [← h]
        simp

/-- C9 witness: construction fails on a missing executable and a
constructed state holds the nonempty resolved path. -/
theorem missing_git_fatal_at_init_witness :
    gitops_init none (pyStr "/home/u/repo") = .error .gitNotFound
    ∧ (GitOpsState.mk (pyStr "/usr/bin/git") (pyStr "/home/u/repo")).git ≠ [] :=
  ⟨missing_git_fatal_at_init.1 (pyStr "/home/u/repo"),
   missing_git_fatal_at_init.2 (some (pyStr "/usr/bin/git")) (pyStr "/home/u/repo")
     (GitOpsState.mk (pyStr "/usr/bin/git") (pyStr "/home/u/repo")) rfl⟩

/-- C10 (implicit): when a token is supplied but the remote URL starts with
neither `https://` nor `git@` (for example an `http://` or `ssh://` form),
the token-injection block leaves the URL unchanged and the unchanged URL is
what the underlying `git clone` invocation receives. -/
theorem clone_other_scheme_url_unchanged (url t repo_name : List Char)
    (pr : ProcResult) (cpe : Bool)
    (h1 : (pyStr "https://").isPrefixOf url = false)
    (h2 : (pyStr "git@").isPrefixOf url = false) :
    prepareUrl url (some t) = url
    ∧ (clone false url (some t) repo_name pr cpe).2
        = [.mkdirParents, .gitRun [pyStr "clone", url, repo_name]] := by
  have hp : prepareUrl url (some t) = url := by
    simp [prepareUrl, h1, h2]
  refine ⟨hp, ?_⟩
  cases hr : run_git pr <;> cases cpe <;> simp [clone, hr, hp]

/-- C10 witness: an `http://` URL with a nonempty token is passed through
unchanged. -/
theorem clone_other_scheme_url_unchanged_witness :
    prepareUrl (pyStr "http://github.com/o/r.git") (some (pyStr "T"))
        = pyStr "http://github.com/o/r.git"
    ∧ (clone false (pyStr "http://github.com/o/r.git") (some (pyStr "T"))
        (pyStr "r") (.completed []) true).2
      = [.mkdirParents,
         .gitRun [pyStr "clone", pyStr "http://github.com/o/r.git", pyStr "r"]] :=
  clone_other_scheme_url_unchanged (pyStr "http://github.com/o/r.git") (pyStr "T")
    (pyStr "r") (.completed []) true (by decide) (by decide)

end CloudCli
